import Mathlib

/-!
Verification development for the decky-spotify-connect-speaker plugin.

The Python sources (src/main.py, src/py_modules/mpris.py,
src/py_modules/events.py) are shallowly embedded below.  Text handled by
Python `str` methods is represented as `List Char`; the helper functions
`findSub`, `pyContains`, `pySplit`, `pyStrip`, `pySplitWs` mirror the exact
semantics of the Python operations `str.find`/`in`, `str.split(sep)`,
`str.strip()` and `str.split()` (for non-empty separators), since the
source's parsing is written entirely with them.  Python floats are modelled
as rationals (`Rat`): none of the properties verified here depend on IEEE
rounding, only on comparisons and on which value is stored or sent.
-/

set_option maxRecDepth 65536

/-- Index of the first occurrence of `pat` in `s` (Python `str.find`), `none`
when `pat` does not occur.  For the empty pattern the answer is `0`, as in
Python. -/
def findSub (pat : List Char) : List Char → Option Nat
  | [] => if pat = [] then some 0 else none
  | c :: t =>
    if pat.isPrefixOf (c :: t) then some 0
    else (findSub pat t).map (fun n => n + 1)

/-- Python's substring test `pat in s`. -/
def pyContains (pat s : List Char) : Bool := (findSub pat s).isSome

/-- Fuelled worker for `pySplit`; the fuel `s.length + 1` always suffices for
a non-empty separator, which is the only way the source uses `str.split`. -/
def pySplitGo (sep : List Char) : Nat → List Char → List (List Char)
  | 0, s => [s]
  | fuel + 1, s =>
    match findSub sep s with
    | none => [s]
    | some i => s.take i :: pySplitGo sep fuel (s.drop (i + sep.length))

/-- Python `s.split(sep)` for a non-empty separator: the list of segments
between consecutive non-overlapping occurrences of `sep`, scanned left to
right. -/
def pySplit (s sep : List Char) : List (List Char) := pySplitGo sep (s.length + 1) s

/-- Whitespace characters recognised by Python's `str.strip()` / `str.split()`. -/
def pyIsWs (c : Char) : Bool :=
  c = ' ' ∨ c = '\t' ∨ c = '\n' ∨ c = '\r' ∨ c = '\x0b' ∨ c = '\x0c'

/-- Python `s.strip()`. -/
def pyStrip (s : List Char) : List Char :=
  ((s.dropWhile pyIsWs).reverse.dropWhile pyIsWs).reverse

/-- Fuelled worker for `pySplitWs`; each step consumes at least one
character, so fuel `s.length + 1` always suffices. -/
def pySplitWsGo : Nat → List Char → List (List Char)
  | 0, _ => []
  | _, [] => []
  | fuel + 1, c :: t =>
    if pyIsWs c then pySplitWsGo fuel t
    else ((c :: t).takeWhile (fun d => ¬ pyIsWs d)) ::
      pySplitWsGo fuel ((c :: t).dropWhile (fun d => ¬ pyIsWs d))

/-- Python `s.split()` (no separator): split on runs of whitespace, with no
empty segments. -/
def pySplitWs (s : List Char) : List (List Char) := pySplitWsGo (s.length + 1) s

/-- Python `int(s)` restricted to an optional sign followed by decimal
digits, which is the shape of every integer token in a `dbus-send` reply
(the source's `int()` calls never see underscore grouping or whitespace,
because the token was produced by `str.split()`).  Anything else is `none`,
modelling the `ValueError` that the source catches. -/
def pyInt (s : List Char) : Option Int :=
  let core : List Char → Option Int := fun ds =>
    if ds = [] ∨ ¬ ds.all Char.isDigit then none
    else some (Int.ofNat (ds.foldl (fun acc c => acc * 10 + c.toNat - '0'.toNat) 0))
  match s with
  | '-' :: rest => (core rest).map (fun n => -n)
  | '+' :: rest => core rest
  | _ => core s

/-- Python `float(s)` restricted to an optional sign, decimal digits and an
optional fractional part — the shape `dbus-send` prints for a `double`
property value.  Exponent/`inf`/`nan` forms never occur in those replies and
are mapped to `none` (a `ValueError` in the source, which it catches). -/
def pyFloatQ (s : List Char) : Option Rat :=
  let digitsVal : List Char → Nat := fun ds =>
    ds.foldl (fun acc c => acc * 10 + c.toNat - '0'.toNat) 0
  let core : List Char → Option Rat := fun t =>
    let ip := t.takeWhile Char.isDigit
    let rest := t.dropWhile Char.isDigit
    match rest with
    | [] => if ip = [] then none else some (Rat.divInt (Int.ofNat (digitsVal ip)) 1)
    | '.' :: fp =>
      if ¬ fp.all Char.isDigit then none
      else if ip = [] ∧ fp = [] then none
      else some (Rat.divInt
        (Int.ofNat (digitsVal ip * 10 ^ fp.length + digitsVal fp))
        (Int.ofNat (10 ^ fp.length)))
    | _ => none
  match s with
  | '-' :: rest => (core rest).map (fun q => -q)
  | '+' :: rest => core rest
  | _ => core s

/-- Convenience: the character data of a string literal. -/
def lit (s : String) : List Char := s.data

/-- The current track, as stored in `self._now_playing["track"]`
(src/main.py).  The Python value is a dict whose keys appear gradually:
`track_id`/`duration_ms` come from the `change` notification, the remaining
keys only once MPRIS metadata has been merged.  An absent key is `none`. -/
structure Track where
  track_id : Option String
  name : Option String
  artists : Option (List String)
  album : Option String
  cover_url : Option String
  duration_ms : Option Int
  deriving DecidableEq, Repr

/-- The empty dict `{}` from which `MPRISController.get_metadata`
(src/py_modules/mpris.py) starts its parse. -/
def emptyTrack : Track :=
  { track_id := none, name := none, artists := none, album := none,
    cover_url := none, duration_ms := none }

/-- A decoded notification, i.e. the dict produced by `json.loads` in
`_handle_event_connection` (src/main.py).  `event.get(k)` / `event.get(k, d)`
are `Option` reads; keys the state machine never reads are not modelled. -/
structure PyEvent where
  event : Option String
  track_id : Option String
  duration_ms : Option Int
  position_ms : Option Int
  deriving DecidableEq, Repr

/-- `self._now_playing` (src/main.py, `Plugin.__init__`).  The dict carries
all seven keys from construction on, so the fields are not optional except
where the Python value itself may be `None`. -/
structure NowPlaying where
  connected : Bool
  user_name : Option String
  connection_id : Option String
  track : Option Track
  playback_state : String
  position_ms : Int
  volume : Rat
  deriving DecidableEq, Repr

/-- The initial `self._now_playing` built in `Plugin.__init__`
(src/main.py lines 58-66): note the hard-coded `"volume": 0.5`. -/
def initialNowPlaying : NowPlaying :=
  { connected := false, user_name := none, connection_id := none,
    track := none, playback_state := "stopped", position_ms := 0,
    volume := 1/2 }

/-- `DEFAULT_SETTINGS["initial_volume"]` (src/main.py line 53), on the 0-100
scale used by the generated spotifyd configuration file. -/
def defaultInitialVolumeSetting : Int := 80

/-- Background work spawned with `asyncio.create_task` during
`Plugin._process_event`. -/
inductive ScheduledTask where
  | fetchMetadataDelayed
  | updateVolume
  | emitNowPlaying
  deriving DecidableEq, Repr

/-- `Plugin._process_event` (src/main.py lines 360-401): the synchronous
state update performed for one decoded notification, paired with the list of
background tasks it spawns (in spawn order; the trailing `decky.emit` task
is spawned for every notification, recognised or not). -/
def processEvent (np : NowPlaying) (e : PyEvent) : NowPlaying × List ScheduledTask :=
  let base : NowPlaying × List ScheduledTask :=
    if e.event = some "change" then
      ({ np with connected := true,
                 track := some { track_id := some (e.track_id.getD ""),
                                 name := none, artists := none, album := none,
                                 cover_url := none,
                                 duration_ms := some (e.duration_ms.getD 0) },
                 position_ms := 0 },
       [ScheduledTask.fetchMetadataDelayed])
    else if e.event = some "start" then
      ({ np with connected := true, playback_state := "playing",
                 position_ms := e.position_ms.getD 0 }, [])
    else if e.event = some "pause" then
      ({ np with playback_state := "paused",
                 position_ms := e.position_ms.getD 0 }, [])
    else if e.event = some "stop" ∨ e.event = some "endoftrack" then
      ({ np with playback_state := "stopped", position_ms := 0 }, [])
    else if e.event = some "sessionconnected" then
      ({ np with connected := true }, [])
    else if e.event = some "volumeset" then
      (np, [ScheduledTask.updateVolume])
    else (np, [])
  (base.1, base.2 ++ [ScheduledTask.emitNowPlaying])

/-- Dispatch a whole sequence of notifications in order. -/
def processEvents (np : NowPlaying) : List PyEvent → NowPlaying
  | [] => np
  | e :: es => processEvents (processEvent np e).1 es

/-- Element `i` of a Python `split` result; the source only indexes positions
its guards have already shown to exist. -/
def seg (parts : List (List Char)) (i : Nat) : List Char := parts.getD i []

/-- The bus-name stem `"org.mpris.MediaPlayer2.spotifyd"` (the source's
constant `MPRIS_BUS_NAME_PREFIX`, src/main.py line 27 and
src/py_modules/constants.py line 24). -/
def mprisBusNameStem : String := "org.mpris.MediaPlayer2.spotifyd"

/-- Scalar-field extraction shared by the metadata parsers
(src/py_modules/mpris.py lines 272-305 and src/main.py lines 462-495):
`output.split(marker)[1].split('string "')[1].split('"')[0]`, guarded by the
two `in` checks; `none` means no assignment to the field happens. -/
def scalarAfter (out marker : List Char) : Option (List Char) :=
  if pyContains marker out then
    let m := seg (pySplit out marker) 1
    if pyContains (lit "string \"") m then
      some (seg (pySplit (seg (pySplit m (lit "string \"")) 1) ['"']) 0)
    else none
  else none

/-- The `for part in artist_section.split('string "')[1:]` loop
(mpris.py lines 283-289, main.py lines 473-479): quoted tokens are collected
until one is empty or starts with `xesam:` (the `break`); parts without a
closing quote are skipped without breaking. -/
def collectArtists : List (List Char) → List (List Char)
  | [] => []
  | part :: rest =>
    if pyContains ['"'] part then
      let artist := seg (pySplit part ['"']) 0
      if artist ≠ [] ∧ ¬ (lit "xesam:").isPrefixOf artist then
        artist :: collectArtists rest
      else []
    else collectArtists rest

/-- The artist-array extraction (mpris.py lines 280-291, main.py lines
470-481): when the marker is absent, or the collected list is empty, the
`artists` key is not assigned at all (`none`). -/
def artistsAfter (out : List Char) : Option (List (List Char)) :=
  if pyContains (lit "xesam:artist") out then
    let parts := (pySplit (seg (pySplit out (lit "xesam:artist")) 1) (lit "string \"")).drop 1
    let a := collectArtists parts
    if a ≠ [] then some a else none
  else none

/-- The `mpris:length` extraction (mpris.py lines 308-316, main.py lines
498-506): microseconds parsed with `int(...)` and floor-divided by 1000;
`none` models the guard failing or the caught `ValueError`/`IndexError`. -/
def durationAfter (out : List Char) : Option Int :=
  if pyContains (lit "mpris:length") out then
    let m := seg (pySplit out (lit "mpris:length")) 1
    if pyContains (lit "int64 ") m ∨ pyContains (lit "uint64 ") m then
      let lengthStr :=
        if pyContains (lit "int64 ") m then (pySplitWs (seg (pySplit m (lit "int64 ")) 1)).head?
        else (pySplitWs (seg (pySplit m (lit "uint64 ")) 1)).head?
      match lengthStr with
      | none => none
      | some s => (pyInt s).map (fun n => Int.fdiv n 1000)
    else none
  else none

/-- The field-by-field merge of a `dbus-send` Metadata reply into a track
dict — the parse block shared verbatim by `MPRISController.get_metadata`
(mpris.py lines 270-316, starting from `{}`) and
`Plugin._update_track_metadata` (main.py lines 460-507, starting from the
current track).  A field whose extraction yields `none` is left untouched. -/
def updTrack (t : Track) (out : List Char) : Track :=
  let t1 := match scalarAfter out (lit "xesam:title") with
            | some s => { t with name := some (String.mk s) }
            | none => t
  let t2 := match artistsAfter out with
            | some a => { t1 with artists := some (a.map String.mk) }
            | none => t1
  let t3 := match scalarAfter out (lit "xesam:album") with
            | some s => { t2 with album := some (String.mk s) }
            | none => t2
  let t4 := match scalarAfter out (lit "mpris:artUrl") with
            | some s => { t3 with cover_url := some (String.mk s) }
            | none => t3
  match durationAfter out with
  | some d => { t4 with duration_ms := some d }
  | none => t4

/-- The parse step of `MPRISController.get_metadata` alone: it starts from
the empty dict `track = {}` (mpris.py line 270). -/
def parseMetadata (out : List Char) : Track := updTrack emptyTrack out

/-- `MPRISController.get_metadata` (mpris.py lines 234-323): `busName` is
the result of `get_bus_name`, `rc` the `dbus-send` exit status, `out` its
decoded stdout; `none` on the failure paths. -/
def getMetadata (busName : Option String) (rc : Int) (out : List Char) : Option Track :=
  match busName with
  | none => none
  | some _ => if rc ≠ 0 then none else some (parseMetadata out)

/-- Whether the parse block would execute at least one `track[...] = ...`
assignment on `out`.  When `self._now_playing["track"]` is `None`, the first
such assignment raises `TypeError`, which the enclosing `except` of
`_update_track_metadata` turns into a `False` return. -/
def wouldAssign (out : List Char) : Bool :=
  (scalarAfter out (lit "xesam:title")).isSome ∨ (artistsAfter out).isSome ∨
  (scalarAfter out (lit "xesam:album")).isSome ∨
  (scalarAfter out (lit "mpris:artUrl")).isSome ∨ (durationAfter out).isSome

/-- `Plugin._update_track_metadata` (main.py lines 422-519): one metadata
fetch-and-merge attempt.  It reads the track that is current AT MERGE TIME
(`self._now_playing.get("track", {})`, line 460) — no identity captured at
schedule time is consulted.  Returns the updated state and the `True`/`False`
the retry loop inspects.  (The `decky.emit` on success only republishes the
state and is not part of the state transition.) -/
def updateTrackMetadata (busName : Option String) (rc : Int) (out : List Char)
    (np : NowPlaying) : NowPlaying × Bool :=
  match busName with
  | none => (np, false)
  | some _ =>
    if rc ≠ 0 then (np, false)
    else
      match np.track with
      | some t => ({ np with track := some (updTrack t out) }, true)
      | none => if wouldAssign out then (np, false) else (np, true)

/-- One timed action of the delayed metadata fetch. -/
inductive FetchAct where
  | sleep (t : Rat)
  | attempt (i : Nat)
  deriving DecidableEq, Repr

/-- The `for attempt in range(3)` retry loop of
`Plugin._update_track_metadata_delayed` (main.py lines 415-420): attempt,
`break` on success, otherwise sleep 0.5 and continue; `outcome i` is the
boolean returned by the `i`-th `_update_track_metadata()` call. -/
def retryFrom (outcome : Nat → Bool) : Nat → Nat → List FetchAct
  | _, 0 => []
  | i, fuel + 1 =>
    FetchAct.attempt i ::
      (if outcome i then [] else FetchAct.sleep (1/2) :: retryFrom outcome (i + 1) fuel)

/-- The full timed trace of `Plugin._update_track_metadata_delayed`
(main.py lines 409-420): `await asyncio.sleep(1.0)`, then the retry loop. -/
def delayedTrace (outcome : Nat → Bool) : List FetchAct :=
  FetchAct.sleep 1 :: retryFrom outcome 0 3

/-- Number of metadata query attempts in a trace. -/
def countAttempts (tr : List FetchAct) : Nat :=
  (tr.filter fun a => match a with | FetchAct.attempt _ => true | _ => false).length

/-- Line filter of `get_bus_name` (mpris.py line 79, main.py line 286):
`MPRIS_BUS_NAME_PREFIX in line and 'string "' in line` — a SUBSTRING test on
the raw output line. -/
def busLineMatch (line : List Char) : Bool :=
  pyContains (lit mprisBusNameStem) line ∧ pyContains (lit "string \"") line

/-- Name extraction of `get_bus_name` (mpris.py line 81):
`line.split('string "')[1].split('"')[0]`. -/
def extractBusName (line : List Char) : List Char :=
  seg (pySplit (seg (pySplit line (lit "string \"")) 1) ['"']) 0

/-- `MPRISController.get_bus_name` (mpris.py lines 52-90, duplicated as
`Plugin._get_mpris_bus_name` in main.py lines 259-297): `rc`/`out` are the
exit status and decoded stdout of the `ListNames` call; the first matching
line wins; every failure path returns `None` rather than raising. -/
def getBusName (rc : Int) (out : List Char) : Option String :=
  if rc ≠ 0 then none
  else ((pySplit out ['\n']).find? busLineMatch).map (fun l => String.mk (extractBusName l))

/-- Clamp of `Plugin.set_volume` (main.py line 828) and
`MPRISController.set_volume` (mpris.py line 196):
`max(0.0, min(1.0, float(volume)))`. -/
def pyClamp01 (v : Rat) : Rat := max 0 (min 1 v)

/-- `Plugin.set_volume` (main.py lines 824-868).  Result: the state after the
call, the boolean returned to the caller, and the value sent on the bus as
`variant:double:{volume}` (`none` when discovery failed and nothing was
sent).  `self._now_playing["volume"]` is assigned only on the success path
(line 861), after the exchange returned status 0. -/
def setVolume (v : Rat) (busName : Option String) (rc : Int)
    (np : NowPlaying) : NowPlaying × Bool × Option Rat :=
  let volume := pyClamp01 v
  match busName with
  | none => (np, false, none)
  | some _ =>
    if rc ≠ 0 then (np, false, some volume)
    else ({ np with volume := volume }, true, some volume)

/-- `Plugin.get_volume` (main.py lines 779-822).  Result: the value returned
to the caller and the state afterwards.  Every failure path returns
`self._now_playing.get("volume", 0.5)` — since `__init__` stores `0.5` under
that key, this is exactly the stored `np.volume`; the successful parse also
stores the parsed value (line 815).  The parse takes the FIRST line
containing `double`, the text after the LAST `double` on it, strips it, and
applies `float(...)`; a `ValueError` there lands in the outer `except`. -/
def getVolume (busName : Option String) (rc : Int) (out : List Char)
    (np : NowPlaying) : Rat × NowPlaying :=
  match busName with
  | none => (np.volume, np)
  | some _ =>
    if rc ≠ 0 then (np.volume, np)
    else if pyContains (lit "double") out then
      match (pySplit out ['\n']).find? (fun l => pyContains (lit "double") l) with
      | some line =>
        match pyFloatQ (pyStrip ((pySplit line (lit "double")).getLastD [])) with
        | some v => (v, { np with volume := v })
        | none => (np.volume, np)
      | none => (np.volume, np)
    else (np.volume, np)

/-- The read bound of the ingress server:
`data = await reader.read(4096)` (src/py_modules/events.py line 67,
src/main.py line 350). -/
def ingressReadBound : Nat := 4096

/-- Opening brace character (code point 123). -/
def lbrace : Char := Char.ofNat 123

/-- Closing brace character (code point 125). -/
def rbrace : Char := Char.ofNat 125

/-- A flat JSON value, as far as the event payloads use them. -/
inductive JVal where
  | str (s : String)
  | int (n : Int)
  deriving DecidableEq, Repr

/-- JSON whitespace accepted by Python's `json.loads`. -/
def jIsWs (c : Char) : Bool := c = ' ' ∨ c = '\t' ∨ c = '\n' ∨ c = '\r'

/-- Skip JSON whitespace. -/
def skipWsJ (s : List Char) : List Char := s.dropWhile jIsWs

/-- Body of a JSON string after its opening quote, without escape sequences
(an escape puts the payload outside the modelled subset, see
`jsonLoadsEvent`). -/
def jStrGo : List Char → Option (List Char × List Char)
  | [] => none
  | c :: t =>
    if c = '"' then some ([], t)
    else if c = '\\' then none
    else (jStrGo t).map (fun p => (c :: p.1, p.2))

/-- A run of decimal digits and its value. -/
def jDigits (s : List Char) : Option (Nat × List Char) :=
  let ds := s.takeWhile Char.isDigit
  if ds = [] then none
  else some (ds.foldl (fun acc c => acc * 10 + c.toNat - '0'.toNat) 0,
    s.dropWhile Char.isDigit)

/-- A flat JSON value: a string or an (optionally negated) integer. -/
def jValAt : List Char → Option (JVal × List Char)
  | '"' :: t => (jStrGo t).map (fun p => (JVal.str (String.mk p.1), p.2))
  | '-' :: t => (jDigits t).map (fun p => (JVal.int (-(p.1 : Int)), p.2))
  | s => (jDigits s).map (fun p => (JVal.int (p.1 : Int), p.2))

/-- The comma-separated `"key": value` entries of a JSON object, starting
just inside the opening brace and consuming the closing brace. -/
def jEntries : Nat → List Char → Option (List (String × JVal) × List Char)
  | 0, _ => none
  | fuel + 1, s =>
    match s with
    | '"' :: t =>
      match jStrGo t with
      | none => none
      | some (k, r1) =>
        match skipWsJ r1 with
        | ':' :: r2 =>
          match jValAt (skipWsJ r2) with
          | none => none
          | some (v, r3) =>
            match skipWsJ r3 with
            | c :: r4 =>
              if c = ',' then
                (jEntries fuel (skipWsJ r4)).map (fun p => ((String.mk k, v) :: p.1, p.2))
              else if c = rbrace then some ([(String.mk k, v)], r4)
              else none
            | [] => none
        | _ => none
    | _ => none

/-- A whole JSON document that is one flat object, with nothing but
whitespace after it — `json.loads` restricted to the payload shape the hook
script emits. -/
def jsonLoadsObj (s : List Char) : Option (List (String × JVal)) :=
  match skipWsJ s with
  | c :: r =>
    if c = lbrace then
      match skipWsJ r with
      | d :: _ =>
        if d = rbrace then
          if skipWsJ ((skipWsJ r).drop 1) = [] then some [] else none
        else
          match jEntries (r.length + 1) (skipWsJ r) with
          | some (kvs, rest) => if skipWsJ rest = [] then some kvs else none
          | none => none
      | [] => none
    else none
  | [] => none

/-- Python dict lookup over the parsed entries; on duplicate keys the last
occurrence wins, as in a Python dict literal built by `json.loads`. -/
def dictGetStr (kvs : List (String × JVal)) (k : String) : Option String :=
  match kvs.reverse.find? (fun p => p.1 = k) with
  | some (_, JVal.str s) => some s
  | _ => none

/-- Python dict lookup for an integer-valued key. -/
def dictGetInt (kvs : List (String × JVal)) (k : String) : Option Int :=
  match kvs.reverse.find? (fun p => p.1 = k) with
  | some (_, JVal.int n) => some n
  | _ => none

/-- UTF-8 decoding restricted to ASCII payloads (every payload the hook
script emits is ASCII JSON); a non-ASCII byte puts the payload outside the
modelled subset and is mapped to `none`. -/
def asciiDecode : List Nat → Option (List Char)
  | [] => some []
  | b :: t => if b < 128 then (asciiDecode t).map (fun cs => Char.ofNat b :: cs) else none

/-- Model of the library call `json.loads(data.decode())` followed by the
dict reads the state machine performs.  This is standard-library code, not
repository code; it is modelled for the subset of payloads exercised here:
ASCII bytes encoding one flat JSON object whose values are unescaped strings
or integers.  Payloads outside the subset (escapes, nested values,
non-object documents, non-ASCII bytes) are mapped to `none`. -/
def jsonLoadsEvent (bs : List Nat) : Option PyEvent :=
  match asciiDecode bs with
  | none => none
  | some cs =>
    match jsonLoadsObj cs with
    | none => none
    | some kvs =>
      some { event := dictGetStr kvs "event",
             track_id := dictGetStr kvs "track_id",
             duration_ms := dictGetInt kvs "duration_ms",
             position_ms := dictGetInt kvs "position_ms" }

/-- `EventHandler._handle_connection` (events.py lines 64-78, duplicated as
`Plugin._handle_event_connection` in main.py lines 347-358): read at most
4096 bytes, close the connection, skip empty payloads, decode, and invoke
the consumer once on success; any exception is caught and logged.  The
decode is passed as a parameter (it is the standard library's
`json.loads(data.decode())`); the result is `some e` exactly when the
consumer callback is invoked, with `e` its argument. -/
def handleConnection (decode : List Nat → Option PyEvent) (payload : List Nat) :
    Option PyEvent :=
  let data := payload.take ingressReadBound
  if data = [] then none else decode data

/-- The accept loop: connections are handled one after the other, and a
failed connection never stops the loop — the list of consumer invocations,
in connection-accept order. -/
def acceptLoop (decode : List Nat → Option PyEvent) (conns : List (List Nat)) :
    List PyEvent :=
  conns.filterMap (handleConnection decode)

/-- The ASCII characters of the JSON text produced by the hook script for a
`start` event: one object with the single entry `"event": "start"`. -/
def jsonStartChars : List Char :=
  lbrace :: '"' :: 'e' :: 'v' :: 'e' :: 'n' :: 't' :: '"' :: ':' ::
    '"' :: 's' :: 't' :: 'a' :: 'r' :: 't' :: '"' :: [rbrace]

/-- The same JSON text as raw bytes (all ASCII). -/
def jsonStartBytes : List Nat := jsonStartChars.map Char.toNat

/-- A 4097-byte ingress payload: 17 bytes of valid JSON followed by 4080
trailing space bytes — longer than the 4096-byte read bound, with a prefix
that still decodes. -/
def c7payload : List Nat := jsonStartBytes ++ List.replicate 4080 32

theorem asciiDecode_append (a b : List Nat) :
    asciiDecode (a ++ b) =
      (asciiDecode a).bind (fun x => (asciiDecode b).map (fun y => x ++ y)) := by
  induction a with
  | nil =>
    simp [asciiDecode]
  | cons h t ih =>
    by_cases hb : h < 128 <;> simp [asciiDecode, hb, ih]
    cases asciiDecode t <;> cases asciiDecode b <;> simp

theorem asciiDecode_replicate_32 (n : Nat) :
    asciiDecode (List.replicate n 32) = some (List.replicate n ' ') := by
  induction n with
  | zero => rfl
  | succ n ih => simp [List.replicate_succ, asciiDecode, ih]

theorem skipWsJ_replicate_space (n : Nat) :
    skipWsJ (List.replicate n ' ') = [] := by
  induction n with
  | zero => rfl
  | succ n ih => simp [List.replicate_succ, skipWsJ, List.dropWhile_cons, jIsWs]

theorem jEntries_eventStart (fuel : Nat) (rest : List Char) :
    jEntries (fuel + 1)
      ('"' :: 'e' :: 'v' :: 'e' :: 'n' :: 't' :: '"' :: ':' ::
        '"' :: 's' :: 't' :: 'a' :: 'r' :: 't' :: '"' :: rbrace :: rest) =
      some ([("event", JVal.str "start")], rest) := by
  have w2 : jIsWs ':' = false := by decide
  have w3 : jIsWs '"' = false := by decide
  have w4 : jIsWs rbrace = false := by decide
  have hk : String.mk ['e', 'v', 'e', 'n', 't'] = "event" := rfl
  have hv : String.mk ['s', 't', 'a', 'r', 't'] = "start" := rfl
  have hne : rbrace ≠ ',' := by decide
  simp [jEntries, jStrGo, jValAt, skipWsJ, List.dropWhile_cons, w2, w3, w4, hne, hk, hv]

theorem jsonLoadsObj_start_pad (rest : List Char) (h : skipWsJ rest = []) :
    jsonLoadsObj (jsonStartChars ++ rest) = some [("event", JVal.str "start")] := by
  have w1 : jIsWs lbrace = false := by decide
  have w3 : jIsWs '"' = false := by decide
  have hne : ('"' : Char) ≠ rbrace := by decide
  simp only [skipWsJ] at h
  simp [jsonStartChars, jsonLoadsObj, skipWsJ, List.dropWhile_cons, w1, w3, hne,
    jEntries_eventStart, h]

theorem c7_take :
    c7payload.take 4096 = jsonStartBytes ++ List.replicate 4079 32 := by
  have hlen : jsonStartBytes.length = 17 := by decide
  rw [c7payload, List.take_append_eq_append_take, hlen]
  have h1 : jsonStartBytes.take 4096 = jsonStartBytes := by decide
  rw [h1, List.take_replicate]
  norm_num

theorem c7_event :
    jsonLoadsEvent (jsonStartBytes ++ List.replicate 4079 32) =
      some { event := some "start", track_id := none, duration_ms := none,
             position_ms := none } := by
  have h1 : asciiDecode jsonStartBytes = some jsonStartChars := by decide
  rw [jsonLoadsEvent, asciiDecode_append, h1, asciiDecode_replicate_32]
  simp only [Option.map_some', Option.some_bind]
  rw [jsonLoadsObj_start_pad _ (skipWsJ_replicate_space 4079)]
  decide

/-- A `session_disconnected` notification (the spec's table row); the
dispatcher in `_process_event` has no branch for it. -/
def sessionDisconnectedEvent : PyEvent :=
  { event := some "session_disconnected", track_id := none, duration_ms := none,
    position_ms := none }

/-- A `change` notification for track `A`. -/
def changeA : PyEvent :=
  { event := some "change", track_id := some "A", duration_ms := some 100000,
    position_ms := none }

/-- A `change` notification for track `B`, superseding `A`. -/
def changeB : PyEvent :=
  { event := some "change", track_id := some "B", duration_ms := some 200000,
    position_ms := none }

/-- A `start` (transport started) notification. -/
def startEvent : PyEvent :=
  { event := some "start", track_id := some "A", duration_ms := none,
    position_ms := some 0 }

/-- State after `change A` then `start`: connected, playing track `A`. -/
def c1state : NowPlaying := processEvents initialNowPlaying [changeA, startEvent]

/-- The track dict created by dispatching `changeB`. -/
def trackB : Track :=
  { track_id := some "B", name := none, artists := none, album := none,
    cover_url := none, duration_ms := some 200000 }

/-- State after `change A` then `change B`: the current track is `B`, while
the metadata fetch scheduled by `change A` may still be in flight. -/
def s2 : NowPlaying := processEvents initialNowPlaying [changeA, changeB]

/-- A Metadata reply describing the superseded track `A`. -/
def staleReplyA : List Char := lit
  "method return sender=:1.5\n   array [\n      dict entry( string \"xesam:title\" variant string \"Song For A\" )\n   ]\n"

/-- C1 counterexample: from a connected, playing state, dispatching a
`session_disconnected` notification leaves `connected` `true`, the track in
place and the playback state `playing` — `_process_event` has no branch for
this event kind, so nothing is cleared, contradicting the claimed
`connected=false` / clear-identity / `track=none` / `stopped` effect. -/
theorem c1_counterexample :
    (processEvent c1state sessionDisconnectedEvent).1.connected = true ∧
    (processEvent c1state sessionDisconnectedEvent).1.track ≠ none ∧
    (processEvent c1state sessionDisconnectedEvent).1.playback_state = "playing" := by
  decide

/-- C1 (amended): `session_disconnected` is an unrecognised event kind and
leaves the state completely unchanged — no notification ever sets
`connected` to `false` or clears identity/track.  The surviving half of the
original claim: while `connected` is `false`, it stays `false` until a
`change`, `start` or `sessionconnected` notification is dispatched. -/
theorem c1_session_disconnected_ignored (np : NowPlaying) (e : PyEvent)
    (h : e.event = some "session_disconnected") :
    (processEvent np e).1 = np ∧
    (∀ (np2 : NowPlaying) (e2 : PyEvent), np2.connected = false →
      e2.event ≠ some "change" → e2.event ≠ some "start" →
      e2.event ≠ some "sessionconnected" →
      (processEvent np2 e2).1.connected = false) := by
  refine ⟨?_, ?_⟩
  · simp [processEvent, h]
  · intro np2 e2 hc h1 h2 h3
    simp only [processEvent, h1, h2, h3]
    split_ifs <;> simp_all

/-- C1 witness: the amended theorem applied at the concrete connected state
and the concrete `session_disconnected` notification. -/
theorem c1_session_disconnected_ignored_witness :
    (processEvent c1state sessionDisconnectedEvent).1 = c1state ∧
    (∀ (np2 : NowPlaying) (e2 : PyEvent), np2.connected = false →
      e2.event ≠ some "change" → e2.event ≠ some "start" →
      e2.event ≠ some "sessionconnected" →
      (processEvent np2 e2).1.connected = false) :=
  c1_session_disconnected_ignored c1state sessionDisconnectedEvent rfl

/-- C3 counterexample: after `change A` then `change B`, merging the stale
Metadata reply that belongs to track `A` rewrites the CURRENT track `B`
(its `name` becomes "Song For A") — there is no staleness check comparing
any identity captured at schedule time. -/
theorem c3_counterexample :
    s2.track = some trackB ∧
    (updateTrackMetadata (some "org.mpris.MediaPlayer2.spotifyd.instance1") 0
        staleReplyA s2).1.track = some { trackB with name := some "Song For A" } ∧
    ({ trackB with name := some "Song For A" } : Track) ≠ trackB := by
  decide

/-- C3 (amended): `_update_track_metadata` performs no staleness check — it
takes no schedule-time identity at all and, whenever the exchange succeeds,
merges the reply fields into whatever track is current at merge time,
reporting success. -/
theorem c3_merge_targets_current_track (bn : String) (out : List Char)
    (np : NowPlaying) (t : Track) (h : np.track = some t) :
    (updateTrackMetadata (some bn) 0 out np).1 =
      { np with track := some (updTrack t out) } ∧
    (updateTrackMetadata (some bn) 0 out np).2 = true := by
  simp [updateTrackMetadata, h]

/-- C3 witness: the amended theorem applied at the post-`change B` state and
the stale reply for track `A`. -/
theorem c3_merge_targets_current_track_witness :
    (updateTrackMetadata (some "bus") 0 staleReplyA s2).1 =
      { s2 with track := some (updTrack trackB staleReplyA) } ∧
    (updateTrackMetadata (some "bus") 0 staleReplyA s2).2 = true :=
  c3_merge_targets_current_track "bus" staleReplyA s2 trackB (by decide)

/-- C9 counterexample: the initial `NowPlayingState.volume` is the
hard-coded `0.5` from `Plugin.__init__`, not the configured initial-volume
setting (default `80` on the 0-100 scale, i.e. `0.8`). -/
theorem c9_counterexample :
    initialNowPlaying.volume = 1/2 ∧
    (defaultInitialVolumeSetting : Rat) / 100 = 4/5 ∧
    initialNowPlaying.volume ≠ (defaultInitialVolumeSetting : Rat) / 100 := by
  refine ⟨rfl, by norm_num [defaultInitialVolumeSetting], ?_⟩
  norm_num [initialNowPlaying, defaultInitialVolumeSetting]

/-- C9 (amended): in the initial state the volume is the constant `0.5`; the
configured initial-volume setting (default `80`) exists but is not consulted
for `NowPlayingState.volume` (it is only written into the generated spotifyd
configuration file). -/
theorem c9_initial_volume_constant :
    initialNowPlaying.volume = 1/2 ∧ defaultInitialVolumeSetting = 80 :=
  ⟨rfl, rfl⟩

/-- C2: a `change` notification with id and duration immediately replaces
the track with exactly `{track_id, duration_ms}`, zeroes the position, sets
`connected`, and spawns exactly one delayed metadata-fetch task.  That task
sleeps 1.0, then attempts at most 3 times with a 0.5 sleep after each
failure (the four possible action traces are listed exhaustively), and a
failed attempt never modifies the state — so when all attempts fail the
track keeps only the notification's fields. -/
theorem c2_change_event (np : NowPlaying) (tid : String) (d : Int)
    (p : Option Int) (e : PyEvent)
    (h : e = { event := some "change", track_id := some tid, duration_ms := some d,
               position_ms := p }) :
    (processEvent np e).1 = { np with
                              connected := true,
                              track := some { track_id := some tid, name := none,
                                              artists := none, album := none,
                                              cover_url := none,
                                              duration_ms := some d },
                              position_ms := 0 } ∧
    (processEvent np e).2.count ScheduledTask.fetchMetadataDelayed = 1 ∧
    (∀ outcome : Nat → Bool,
      delayedTrace outcome =
        if outcome 0 then [FetchAct.sleep 1, FetchAct.attempt 0]
        else if outcome 1 then
          [FetchAct.sleep 1, FetchAct.attempt 0, FetchAct.sleep (1/2), FetchAct.attempt 1]
        else if outcome 2 then
          [FetchAct.sleep 1, FetchAct.attempt 0, FetchAct.sleep (1/2), FetchAct.attempt 1,
           FetchAct.sleep (1/2), FetchAct.attempt 2]
        else
          [FetchAct.sleep 1, FetchAct.attempt 0, FetchAct.sleep (1/2), FetchAct.attempt 1,
           FetchAct.sleep (1/2), FetchAct.attempt 2, FetchAct.sleep (1/2)]) ∧
    (∀ outcome : Nat → Bool, countAttempts (delayedTrace outcome) ≤ 3) ∧
    (∀ (bn : Option String) (rc : Int) (out : List Char) (np2 : NowPlaying),
      (updateTrackMetadata bn rc out np2).2 = false →
      (updateTrackMetadata bn rc out np2).1 = np2) := by
  refine ⟨?_, ?_, ?_, ?_, ?_⟩
  · simp [processEvent, h]
  · simp [processEvent, h]
  · intro o
    by_cases h0 : o 0 <;> by_cases h1 : o 1 <;> by_cases h2 : o 2 <;>
      simp [delayedTrace, retryFrom, h0, h1, h2]
  · intro o
    by_cases h0 : o 0 <;> by_cases h1 : o 1 <;> by_cases h2 : o 2 <;>
      simp [delayedTrace, retryFrom, countAttempts, h0, h1, h2]
  · intro bn rc out np2 hf
    cases bn with
    | none => simp [updateTrackMetadata]
    | some b =>
      by_cases hrc : rc ≠ 0
      · simp [updateTrackMetadata, hrc]
      · cases htr : np2.track with
        | some t => simp [updateTrackMetadata, hrc, htr] at hf
        | none =>
          by_cases hw : wouldAssign out
          · simp [updateTrackMetadata, hrc, htr, hw]
          · simp [updateTrackMetadata, hrc, htr, hw] at hf

/-- C2 witness: the theorem applied to the concrete notification
`change B` dispatched in the initial state. -/
theorem c2_change_event_witness :
    (processEvent initialNowPlaying changeB).1 = { initialNowPlaying with
                                                   connected := true,
                                                   track := some trackB,
                                                   position_ms := 0 } ∧
    (processEvent initialNowPlaying changeB).2.count ScheduledTask.fetchMetadataDelayed = 1 ∧
    (∀ outcome : Nat → Bool,
      delayedTrace outcome =
        if outcome 0 then [FetchAct.sleep 1, FetchAct.attempt 0]
        else if outcome 1 then
          [FetchAct.sleep 1, FetchAct.attempt 0, FetchAct.sleep (1/2), FetchAct.attempt 1]
        else if outcome 2 then
          [FetchAct.sleep 1, FetchAct.attempt 0, FetchAct.sleep (1/2), FetchAct.attempt 1,
           FetchAct.sleep (1/2), FetchAct.attempt 2]
        else
          [FetchAct.sleep 1, FetchAct.attempt 0, FetchAct.sleep (1/2), FetchAct.attempt 1,
           FetchAct.sleep (1/2), FetchAct.attempt 2, FetchAct.sleep (1/2)]) ∧
    (∀ outcome : Nat → Bool, countAttempts (delayedTrace outcome) ≤ 3) ∧
    (∀ (bn : Option String) (rc : Int) (out : List Char) (np2 : NowPlaying),
      (updateTrackMetadata bn rc out np2).2 = false →
      (updateTrackMetadata bn rc out np2).1 = np2) :=
  c2_change_event initialNowPlaying "B" 200000 none changeB rfl

/-- C4: `set_volume` clamps its argument to `[0, 1]` before sending
(`1.5` is sent as `1`, `-0.2` as `0`), stores the clamped value only when
the exchange succeeds (status 0), and on every failure path — no endpoint
discovered, or non-zero status — returns `false` and leaves the state
untouched. -/
theorem c4_set_volume (np : NowPlaying) (bn : String) (v : Rat) (rc : Int)
    (hrc : rc ≠ 0) :
    (setVolume (3/2) (some bn) 0 np).2.2 = some 1 ∧
    (setVolume (-1/5) (some bn) 0 np).2.2 = some 0 ∧
    (setVolume v (some bn) 0 np).1 = { np with volume := pyClamp01 v } ∧
    (setVolume v (some bn) 0 np).2.1 = true ∧
    (setVolume v (some bn) rc np).1 = np ∧
    (setVolume v (some bn) rc np).2.1 = false ∧
    (setVolume v (some bn) rc np).2.2 = some (pyClamp01 v) ∧
    (setVolume v none rc np).1 = np ∧
    (setVolume v none rc np).2.1 = false ∧
    0 ≤ pyClamp01 v ∧ pyClamp01 v ≤ 1 := by
  refine ⟨?_, ?_, ?_, ?_, ?_, ?_, ?_, ?_, ?_, ?_, ?_⟩
  · norm_num [setVolume, pyClamp01]
  · norm_num [setVolume, pyClamp01]
  · simp [setVolume]
  · simp [setVolume]
  · simp [setVolume, hrc]
  · simp [setVolume, hrc]
  · simp [setVolume, hrc]
  · simp [setVolume]
  · simp [setVolume]
  · exact le_max_left 0 _
  · exact max_le (by norm_num) (min_le_left _ _)

/-- C4 witness: the theorem applied at the initial state, a sample volume
and a failing exchange status. -/
theorem c4_set_volume_witness :
    (setVolume (3/2) (some "bus") 0 initialNowPlaying).2.2 = some 1 ∧
    (setVolume (-1/5) (some "bus") 0 initialNowPlaying).2.2 = some 0 ∧
    (setVolume (3/4) (some "bus") 0 initialNowPlaying).1 =
      { initialNowPlaying with volume := pyClamp01 (3/4) } ∧
    (setVolume (3/4) (some "bus") 0 initialNowPlaying).2.1 = true ∧
    (setVolume (3/4) (some "bus") 1 initialNowPlaying).1 = initialNowPlaying ∧
    (setVolume (3/4) (some "bus") 1 initialNowPlaying).2.1 = false ∧
    (setVolume (3/4) (some "bus") 1 initialNowPlaying).2.2 = some (pyClamp01 (3/4)) ∧
    (setVolume (3/4) none 1 initialNowPlaying).1 = initialNowPlaying ∧
    (setVolume (3/4) none 1 initialNowPlaying).2.1 = false ∧
    0 ≤ pyClamp01 (3/4) ∧ pyClamp01 (3/4) ≤ 1 :=
  c4_set_volume initialNowPlaying "bus" (3/4) 1 (by norm_num)

/-- A `dbus-send` Metadata reply carrying title "Song A", artists
`["X","Y"]`, album "Album Z" and length 180000000 µs, in the usual
entry order. -/
def c5reply : List Char := lit
  "method return time=1.0 sender=:1.5 -> destination=:1.9 serial=9\n   variant       array [\n      dict entry(\n         string \"xesam:title\"\n         variant             string \"Song A\"\n      )\n      dict entry(\n         string \"xesam:artist\"\n         variant             array [\n               string \"X\"\n               string \"Y\"\n            ]\n      )\n      dict entry(\n         string \"xesam:album\"\n         variant             string \"Album Z\"\n      )\n      dict entry(\n         string \"mpris:length\"\n         variant             int64 180000000\n      )\n   ]\n"

/-- The same four fields in the reverse entry order, with compacted
whitespace. -/
def c5replyAlt : List Char := lit
  "method return sender=:1.5\n   array [\n      dict entry( string \"mpris:length\" variant int64 180000000 )\n      dict entry( string \"xesam:album\" variant string \"Album Z\" )\n      dict entry( string \"xesam:artist\" variant array [ string \"X\" string \"Y\" ] )\n      dict entry( string \"xesam:title\" variant string \"Song A\" )\n   ]\n"

/-- The same four fields in the order title, album, artist, length — a
format-conforming reply in which the `mpris:length` entry directly follows
the artist array. -/
def c5replyDeviant : List Char := lit
  "method return sender=:1.5\n   array [\n      dict entry( string \"xesam:title\" variant string \"Song A\" )\n      dict entry( string \"xesam:album\" variant string \"Album Z\" )\n      dict entry( string \"xesam:artist\" variant array [ string \"X\" string \"Y\" ] )\n      dict entry( string \"mpris:length\" variant int64 180000000 )\n   ]\n"

/-- C5 counterexample: a marker/token-format reply carrying exactly title
"Song A", artists `["X","Y"]`, album "Album Z" and length 180000000 µs, in
which the `mpris:length` entry directly follows the artist array, does NOT
parse to the claimed record: the artist loop breaks only on empty or
`xesam:`-prefixed quoted tokens, so the key string "mpris:length" is
collected as a third artist. -/
theorem c5_counterexample :
    parseMetadata c5replyDeviant ≠
      { track_id := none, name := some "Song A", artists := some ["X", "Y"],
        album := some "Album Z", cover_url := none,
        duration_ms := some 180000 } ∧
    parseMetadata c5replyDeviant =
      { track_id := none, name := some "Song A",
        artists := some ["X", "Y", "mpris:length"],
        album := some "Album Z", cover_url := none,
        duration_ms := some 180000 } := by
  constructor
  · decide
  · decide

/-- C5 (amended): parsing a Metadata reply with title "Song A", artists
`["X","Y"]`, album "Album Z" and length 180000000 µs yields exactly
`{name, artists, album, duration_ms = 180000}` (µs floor-divided by 1000)
when the quoted token following the artist array is `xesam:`-prefixed, as in
the usual and the reversed entry orders below; but when an `mpris:`-keyed
entry directly follows the artist array, its key is also collected as an
artist (`["X","Y","mpris:length"]`), the other three fields still parsing as
claimed. -/
theorem c5_metadata_parse :
    getMetadata (some "org.mpris.MediaPlayer2.spotifyd.instance123") 0 c5reply =
      some { track_id := none, name := some "Song A", artists := some ["X", "Y"],
             album := some "Album Z", cover_url := none,
             duration_ms := some 180000 } ∧
    parseMetadata c5replyAlt =
      { track_id := none, name := some "Song A", artists := some ["X", "Y"],
        album := some "Album Z", cover_url := none,
        duration_ms := some 180000 } ∧
    parseMetadata c5replyDeviant =
      { track_id := none, name := some "Song A",
        artists := some ["X", "Y", "mpris:length"],
        album := some "Album Z", cover_url := none,
        duration_ms := some 180000 } := by
  refine ⟨?_, ?_, ?_⟩
  · decide
  · decide
  · decide

/-- The `artists` field of a merged track is the parsed artist list when one
was extracted, and the previous value otherwise — the shape of the shared
parse block. -/
theorem updTrack_artists (t : Track) (out : List Char) :
    (updTrack t out).artists =
      match artistsAfter out with
      | some a => some (a.map String.mk)
      | none => t.artists := by
  simp only [updTrack]
  rcases scalarAfter out (lit "xesam:title") with _ | s1 <;>
    rcases artistsAfter out with _ | a <;>
      rcases scalarAfter out (lit "xesam:album") with _ | s3 <;>
        rcases scalarAfter out (lit "mpris:artUrl") with _ | s4 <;>
          rcases durationAfter out with _ | dur <;> rfl

/-- C6: when the `xesam:artist` marker does not occur in the reply, the
parsed result has no `artists` field at all (`none`, not an empty list), and
merging the reply into an existing track leaves its `artists` unchanged. -/
theorem c6_missing_artist_marker (out : List Char) (t : Track)
    (h : pyContains (lit "xesam:artist") out = false) :
    (parseMetadata out).artists = none ∧ (updTrack t out).artists = t.artists := by
  have ha : artistsAfter out = none := by simp [artistsAfter, h]
  constructor
  · rw [parseMetadata, updTrack_artists, ha]
    rfl
  · rw [updTrack_artists, ha]

/-- A Metadata reply with a title but no artist marker. -/
def c6reply : List Char := lit
  "method return sender=:1.5\n   array [\n      dict entry( string \"xesam:title\" variant string \"Solo\" )\n   ]\n"

/-- A track that already carries artists from an earlier merge. -/
def prevTrack : Track :=
  { track_id := some "B", name := some "Old", artists := some ["Prev"],
    album := none, cover_url := none, duration_ms := some 1 }

/-- C6 witness: the theorem applied to a concrete reply without the artist
marker and a track whose artists are already known. -/
theorem c6_missing_artist_marker_witness :
    (parseMetadata c6reply).artists = none ∧
    (updTrack prevTrack c6reply).artists = prevTrack.artists :=
  c6_missing_artist_marker c6reply prevTrack (by decide)

/-- C7 counterexample: a 4097-byte ingress payload — exceeding the
4096-byte read bound — whose first 4096 bytes are valid JSON (the object
plus trailing spaces) is NOT dropped: the consumer is invoked with the
parsed `start` event.  Only the bytes beyond the bound are discarded. -/
theorem c7_counterexample :
    c7payload.length > ingressReadBound ∧
    handleConnection jsonLoadsEvent c7payload =
      some { event := some "start", track_id := none, duration_ms := none,
             position_ms := none } := by
  constructor
  · have h17 : jsonStartBytes.length = 17 := by decide
    have hl : c7payload.length = 4097 := by
      rw [c7payload, List.length_append, h17, List.length_replicate]
    rw [hl]; decide
  · rw [handleConnection, ingressReadBound, c7_take]
    have hj : jsonStartBytes ≠ [] := by decide
    have hne : (jsonStartBytes ++ List.replicate 4079 32) ≠ [] :=
      List.append_ne_nil_of_left_ne_nil hj _
    simp only [hne, if_false, c7_event]

/-- C7 (amended): the handler reads at most 4096 bytes of a payload; an
empty payload, or one whose (truncated) read does not decode as UTF-8 JSON,
is dropped without invoking the consumer, and in either case the accept loop
continues with the remaining connections unchanged.  (A payload exceeding
the bound is truncated, not necessarily dropped — see the
counterexample.) -/
theorem c7_ingress_error_handling (decode : List Nat → Option PyEvent)
    (p q : List Nat) (conns : List (List Nat))
    (hq : decode (q.take ingressReadBound) = none) :
    (p.take ingressReadBound).length = min p.length ingressReadBound ∧
    handleConnection decode [] = none ∧
    handleConnection decode q = none ∧
    acceptLoop decode (q :: conns) = acceptLoop decode conns ∧
    acceptLoop decode ([] :: conns) = acceptLoop decode conns := by
  have hq0 : handleConnection decode q = none := by
    by_cases he : q.take ingressReadBound = [] <;> simp [handleConnection, he, hq]
  refine ⟨?_, ?_, hq0, ?_, ?_⟩
  · simp [List.length_take, Nat.min_comm]
  · simp [handleConnection]
  · simp [acceptLoop, List.filterMap_cons, hq0]
  · simp [acceptLoop, List.filterMap_cons, handleConnection]

/-- The bytes of the truncated JSON text `\x7b"event"` — not a valid JSON
document. -/
def c7badPayload : List Nat := (lbrace :: lit "\"event\"").map Char.toNat

/-- C7 witness: the amended theorem applied to the concrete malformed
payload, with one further connection pending behind it. -/
theorem c7_ingress_error_handling_witness :
    (c7badPayload.take ingressReadBound).length =
      min c7badPayload.length ingressReadBound ∧
    handleConnection jsonLoadsEvent [] = none ∧
    handleConnection jsonLoadsEvent c7badPayload = none ∧
    acceptLoop jsonLoadsEvent (c7badPayload :: [jsonStartBytes]) =
      acceptLoop jsonLoadsEvent [jsonStartBytes] ∧
    acceptLoop jsonLoadsEvent ([] :: [jsonStartBytes]) =
      acceptLoop jsonLoadsEvent [jsonStartBytes] :=
  c7_ingress_error_handling jsonLoadsEvent c7badPayload c7badPayload
    [jsonStartBytes] (by decide)

/-- A `ListNames` reply whose only spotifyd-like name merely CONTAINS the
configured stem as an interior substring. -/
def c8substrOut : List Char := lit
  "method return sender=org.freedesktop.DBus -> destination=:1.9 serial=3\n   array [\n      string \"org.freedesktop.DBus\"\n      string \"x.org.mpris.MediaPlayer2.spotifyd\"\n   ]\n"

/-- C8 counterexample: `get_bus_name` returns the name
`"x.org.mpris.MediaPlayer2.spotifyd"`, which does NOT start with the
configured stem — the match is substring containment on the raw line, not a
string-prefix match on the name. -/
theorem c8_counterexample :
    getBusName 0 c8substrOut = some "x.org.mpris.MediaPlayer2.spotifyd" ∧
    (lit mprisBusNameStem).isPrefixOf (lit "x.org.mpris.MediaPlayer2.spotifyd") =
      false := by
  constructor
  · decide
  · decide

/-- A normal `ListNames` reply with a registrar name and one spotifyd
instance name. -/
def c8goodOut : List Char := lit
  "method return sender=org.freedesktop.DBus -> destination=:1.9 serial=3\n   array [\n      string \"org.freedesktop.DBus\"\n      string \"org.mpris.MediaPlayer2.spotifyd.instance123\"\n   ]\n"

/-- A `ListNames` reply with two spotifyd instance names. -/
def c8twoOut : List Char := lit
  "method return sender=org.freedesktop.DBus -> destination=:1.9 serial=3\n   array [\n      string \"org.mpris.MediaPlayer2.spotifyd.instance1\"\n      string \"org.mpris.MediaPlayer2.spotifyd.instance2\"\n   ]\n"

/-- C8 (amended): `get_bus_name` scans the reply lines in order and returns
the quoted string extracted from the first line that contains the configured
stem as a substring; when the listing command fails, or no line matches, it
returns no name (`None`) instead of raising. -/
theorem c8_get_bus_name (rc : Int) (out1 out2 : List Char)
    (hrc : rc ≠ 0)
    (hnone : ∀ l ∈ pySplit out2 ['\n'], busLineMatch l = false) :
    getBusName rc out1 = none ∧
    getBusName 0 out2 = none ∧
    getBusName 0 c8goodOut = some "org.mpris.MediaPlayer2.spotifyd.instance123" ∧
    getBusName 0 c8twoOut = some "org.mpris.MediaPlayer2.spotifyd.instance1" := by
  refine ⟨?_, ?_, ?_, ?_⟩
  · simp [getBusName, hrc]
  · have : (pySplit out2 ['\n']).find? busLineMatch = none :=
      List.find?_eq_none.mpr (by intro l hl; simp [hnone l hl])
    simp [getBusName, this]
  · decide
  · decide

/-- C8 witness: the amended theorem applied to a failed listing and a reply
without any matching line. -/
theorem c8_get_bus_name_witness :
    getBusName 1 [] = none ∧
    getBusName 0 (lit "no match here\nanother line\n") = none ∧
    getBusName 0 c8goodOut = some "org.mpris.MediaPlayer2.spotifyd.instance123" ∧
    getBusName 0 c8twoOut = some "org.mpris.MediaPlayer2.spotifyd.instance1" :=
  c8_get_bus_name 1 [] (lit "no match here\nanother line\n") (by decide) (by decide)

/-- A Volume reply with no `double` token. -/
def volOutNoDouble : List Char := lit
  "method return sender=:1.5\n   variant int32 3\n"

/-- A Volume reply whose `double` line has an unparsable tail. -/
def volOutBad : List Char := lit
  "method return sender=:1.5\n   variant double oops\n"

/-- A well-formed Volume reply carrying the value 0.75. -/
def volOutGood : List Char := lit
  "method return time=1.0 sender=:1.5 -> destination=:1.9 serial=5\n   variant       double 0.75\n"

/-- C10: `get_volume` never propagates an error: with no bus name, a
non-zero status, a reply without a `double` token, or a `double` line whose
tail does not parse (the caught `ValueError`), it returns exactly the stored
`NowPlayingState.volume` — indistinguishable from a live reading — and
leaves the state unchanged; the initial stored value is `0.5`.  On a
successful parse it returns the parsed value and stores it as a side
effect. -/
theorem c10_get_volume (np : NowPlaying) (bn : String) (rc : Int) (o : List Char)
    (outNoD outBad outGood badline goodline : List Char) (v : Rat)
    (hrc : rc ≠ 0)
    (hnd : pyContains (lit "double") outNoD = false)
    (hbc : pyContains (lit "double") outBad = true)
    (hbl : (pySplit outBad ['\n']).find? (fun l => pyContains (lit "double") l) =
      some badline)
    (hbp : pyFloatQ (pyStrip ((pySplit badline (lit "double")).getLastD [])) = none)
    (hgc : pyContains (lit "double") outGood = true)
    (hgl : (pySplit outGood ['\n']).find? (fun l => pyContains (lit "double") l) =
      some goodline)
    (hgp : pyFloatQ (pyStrip ((pySplit goodline (lit "double")).getLastD [])) =
      some v) :
    getVolume none rc o np = (np.volume, np) ∧
    getVolume (some bn) rc o np = (np.volume, np) ∧
    getVolume (some bn) 0 outNoD np = (np.volume, np) ∧
    getVolume (some bn) 0 outBad np = (np.volume, np) ∧
    getVolume (some bn) 0 outGood np = (v, { np with volume := v }) ∧
    initialNowPlaying.volume = 1/2 := by
  refine ⟨rfl, ?_, ?_, ?_, ?_, rfl⟩
  · simp [getVolume, hrc]
  · simp [getVolume, hnd]
  · simp only [List.getLastD_eq_getLast?] at hbp
    simp [getVolume, hbc, hbl, hbp]
  · simp only [List.getLastD_eq_getLast?] at hgp
    simp [getVolume, hgc, hgl, hgp]

/-- C10 witness: the theorem applied at the initial state and concrete
replies for each failure mode and for the successful 0.75 reading. -/
theorem c10_get_volume_witness :
    getVolume none 1 [] initialNowPlaying =
      (initialNowPlaying.volume, initialNowPlaying) ∧
    getVolume (some "bus") 1 [] initialNowPlaying =
      (initialNowPlaying.volume, initialNowPlaying) ∧
    getVolume (some "bus") 0 volOutNoDouble initialNowPlaying =
      (initialNowPlaying.volume, initialNowPlaying) ∧
    getVolume (some "bus") 0 volOutBad initialNowPlaying =
      (initialNowPlaying.volume, initialNowPlaying) ∧
    getVolume (some "bus") 0 volOutGood initialNowPlaying =
      (Rat.divInt 3 4, { initialNowPlaying with volume := Rat.divInt 3 4 }) ∧
    initialNowPlaying.volume = 1/2 :=
  c10_get_volume initialNowPlaying "bus" 1 [] volOutNoDouble volOutBad volOutGood
    (lit "   variant double oops") (lit "   variant       double 0.75")
    (Rat.divInt 3 4)
    (by decide) (by decide) (by decide) (by decide) (by decide) (by decide)
    (by decide) (by decide)
